import Mathlib

/-!
Verification development for the roon-extension-mpris bridge
(src/index.js).  The JavaScript source is shallowly embedded: the zone
registry, zone selection, state projection, seek-position estimation,
the transport command handlers and the artwork cache are translated
into executable Lean definitions, and the specification's claims are
settled as theorems about those definitions.

Modelling conventions:
  * JavaScript numbers are modelled as rationals (ℚ); `Date.now()`
    timestamps (integer milliseconds) are passed explicitly as a `now`
    parameter of type ℚ.
  * Possibly-absent values are `Option`; duck-typed values that the code
    inspects with `typeof` are the inductive `JsVal` (null/undefined,
    string, number, one level of plain object, which is all the code
    ever probes).
  * A JavaScript object used as a string-keyed map (the `zones` registry,
    the artwork cache `Map`) is an insertion-ordered association list.
  * Calls to the external transport and to `player.seeked` are modelled
    as emitted `Emit` events returned next to the new state.
-/

namespace RoonMpris

/-- A primitive JavaScript value: null/undefined, string, or (finite) number.
Used for the fields of a one-level plain object. -/
inductive JsPrim where
  | null
  | str (s : String)
  | num (q : ℚ)
deriving DecidableEq, Repr

/-- A JavaScript value as probed by the bridge's duck-typed helpers
(`extractLine`, `extractText`, `normaliseNumber`): null/undefined, string,
finite number, or a plain object of primitive fields (the code never looks
more than one object level deep: any non-string field is skipped). -/
inductive JsVal where
  | null
  | str (s : String)
  | num (q : ℚ)
  | obj (entries : List (String × JsPrim))
deriving DecidableEq, Repr

/-- Truthiness of a primitive value (`if (v)`); NaN cannot arise since
numbers are modelled as rationals. -/
def JsPrim.truthy : JsPrim → Bool
  | .null => false
  | .str s => s ≠ ""
  | .num q => q ≠ 0

/-- Truthiness of a `JsVal` (`if (v)`): objects are always truthy. -/
def JsVal.truthy : JsVal → Bool
  | .null => false
  | .str s => s ≠ ""
  | .num q => q ≠ 0
  | .obj _ => true

/-- String truthiness for an optional string field (`if (s)`). -/
def strTruthy : Option String → Bool
  | none => false
  | some s => s ≠ ""

/-- JavaScript `s || dflt` for an optional string. -/
def jsOrStr (v : Option String) (dflt : String) : String :=
  match v with
  | some s => if s ≠ "" then s else dflt
  | none => dflt

/-- Model of `String.prototype.toLowerCase` (ASCII-relevant part). -/
def jsToLower (s : String) : String := ⟨s.data.map Char.toLower⟩

/-- Case-insensitive string comparison as the source performs it:
`a.toLowerCase() === b.toLowerCase()`. -/
def ciEq (a b : String) : Bool := jsToLower a = jsToLower b

/-- Model of JavaScript number-to-string conversion; the bridge only ever
stringifies via `line.toString()` on a number, and the feed's numbers are
immaterial to the claims, so the rendering itself is never relied upon. -/
def jsNumToString (q : ℚ) : String := toString q

/-- Lookup in a string-keyed association list (JS object property read). -/
def assocGet {α : Type} (m : List (String × α)) (k : String) : Option α :=
  (m.find? (fun e => e.1 = k)).map (fun e => e.2)

/-- Insertion-ordered upsert (JS `obj[k] = v`): an existing key keeps its
position, a new key is appended. -/
def assocSet {α : Type} : List (String × α) → String → α → List (String × α)
  | [], k, v => [(k, v)]
  | (k', v') :: rest, k, v =>
      if k' = k then (k, v) :: rest else (k', v') :: assocSet rest k v

/-- Key removal (JS `delete obj[k]`). -/
def assocDelete {α : Type} (m : List (String × α)) (k : String) : List (String × α) :=
  m.filter (fun e => e.1 ≠ k)

/-- Whether a primitive value is a string (`typeof v === 'string'`). -/
def JsPrim.isStr : JsPrim → Bool
  | .str _ => true
  | _ => false

/-- The fallback scan of `extractLine` over `Object.values(line)`: the first
string-valued field is the candidate, returned only if truthy. -/
def firstStringField (entries : List (String × JsPrim)) : Option String :=
  match (entries.map (fun e => e.2)).find? JsPrim.isStr with
  | some (JsPrim.str c) => if c ≠ "" then some c else none
  | _ => none

/-- Embedding of `extractLine(line, key)` (src/index.js:517): falsy lines
give null; strings and numbers are taken as-is; for an object, the canonical
key wins if it holds a truthy string, else `Object.values` is scanned for
the first string-valued field, which is returned only if truthy. -/
def extractLine (line : JsVal) (key : String) : Option String :=
  if ¬ line.truthy then none
  else match line with
    | .str s => some s
    | .num q => some (jsNumToString q)
    | .obj entries =>
        match assocGet entries key with
        | some (JsPrim.str s) =>
            if s ≠ "" then some s else firstStringField entries
        | _ => firstStringField entries
    | .null => none

/-- Embedding of `extractText(value)` (src/index.js:529). -/
def extractText (value : JsVal) : Option String :=
  if ¬ value.truthy then none
  else match value with
    | .str s => some s
    | .num q => some (jsNumToString q)
    | .obj entries => extractLine (.obj entries) "line1"
    | .null => none

/-- Embedding of `pickText(values)` (src/index.js:509): the first candidate
whose extracted text is truthy wins. -/
def pickText : List JsVal → Option String
  | [] => none
  | v :: rest =>
      match extractText v with
      | some t => if t ≠ "" then some t else pickText rest
      | none => pickText rest

/-- Embedding of `normaliseNumber(value)` (src/index.js:539): null/undefined
give undefined, finite numbers pass through.  (`Number(...)` coercion of
strings and objects is not exercised by the feed and is not modelled:
non-numbers map to undefined, as `Number` yields NaN on the object shapes
the bridge ever stores in numeric fields.) -/
def normaliseNumber : JsVal → Option ℚ
  | .num q => some q
  | _ => none

/-- JavaScript `(v || 0)` coerced to a number, as used for the seeked
notification: a falsy value gives 0, a number gives itself. -/
def jsNumOrZero : JsVal → ℚ
  | .num q => q
  | _ => 0

/-- Wrap an `Option String` back into a `JsVal` (a helper for feeding
`extractLine` results into `pickText`, as `updateMetadata` does by building
a candidate array). -/
def optToJs : Option String → JsVal
  | some s => .str s
  | none => .null

/-- One output of a zone, used only for preference matching
(src/index.js:292). -/
structure Output where
  output_id : Option String := none
  display_name : Option String := none
deriving DecidableEq, Repr

/-- Zone settings (`zone.settings`): shuffle flag and loop mode string. -/
structure Settings where
  shuffle : Bool := false
  loop : Option String := none
deriving DecidableEq, Repr

/-- The `now_playing` record of a zone; every field is duck-typed as the
code probes them all through `pickText`/`extractLine`/`normaliseNumber`. -/
structure NowPlaying where
  title : JsVal := .null
  artist : JsVal := .null
  artist_line : JsVal := .null
  album : JsVal := .null
  one_line : JsVal := .null
  two_line : JsVal := .null
  three_line : JsVal := .null
  length : JsVal := .null
  seek_position : JsVal := .null
  image_key : JsVal := .null
deriving DecidableEq, Repr

/-- The empty object assigned by `if (!zone.now_playing) zone.now_playing = {}`. -/
def NowPlaying.empty : NowPlaying := {}

/-- A remote zone as delivered by the transport feed.  `outputs` is
`some l` when the field is an array (`Array.isArray`), whose elements may
themselves be null. -/
structure Zone where
  zone_id : String := ""
  display_name : Option String := none
  state : Option String := none
  now_playing : Option NowPlaying := none
  outputs : Option (List (Option Output)) := none
  settings : Option Settings := none
  is_play_allowed : Bool := false
  is_pause_allowed : Bool := false
  is_seek_allowed : Bool := false
  is_next_allowed : Bool := false
  is_previous_allowed : Bool := false
  queue_time_remaining : JsVal := .null
deriving DecidableEq, Repr

/-- Model of the mpris-service library's `player.objectPath(subpath)`:
the player's base D-Bus object path joined with the subpath.  The claims
depend only on the join being a plain prefix concatenation. -/
def objectPath (subpath : String) : String :=
  "/org/mpris/MediaPlayer2/roon/" ++ subpath

/-- The suffix of the idle default track id (src/index.js:15). -/
def DEFAULT_TRACK_ID_SUFFIX : String := "track/0"

/-- The mpris metadata fields the bridge sets. -/
structure Metadata where
  trackid : String
  title : String
  artist : List String
  album : String
  length : Option Int := none
  artUrl : Option String := none
deriving DecidableEq, Repr

/-- The idle metadata written at startup and by `activateZone(null)`
(src/index.js:36 and 310). -/
def idleMetadata : Metadata :=
  { trackid := objectPath DEFAULT_TRACK_ID_SUFFIX
    title := "Roon"
    artist := ["—"]
    album := "—" }

/-- The mpris player properties the bridge drives. -/
structure PlayerState where
  metadata : Metadata
  playbackStatus : String
  canControl : Bool
  canPlay : Bool
  canPause : Bool
  canSeek : Bool
  canGoNext : Bool
  canGoPrevious : Bool
  shuffle : Bool
  loopStatus : String
deriving DecidableEq, Repr

/-- The process-wide mutable state of the bridge (src/index.js:71).
`transport` is whether the transport handle is non-null. -/
structure BridgeState where
  activeCore : Bool
  transport : Bool
  zones : List (String × Zone)
  activeZoneId : Option String
  activeZone : Option Zone
  lastSeekSeconds : ℚ
  lastSeekUpdate : ℚ
  activeLengthSeconds : Option ℚ
  lastKnownZoneState : String
  player : PlayerState
deriving DecidableEq, Repr

/-- The state at startup (src/index.js:28 and 71). -/
def initialBridgeState : BridgeState :=
  { activeCore := false
    transport := false
    zones := []
    activeZoneId := none
    activeZone := none
    lastSeekSeconds := 0
    lastSeekUpdate := 0
    activeLengthSeconds := none
    lastKnownZoneState := "stopped"
    player :=
      { metadata := idleMetadata
        playbackStatus := "Stopped"
        canControl := false
        canPlay := false
        canPause := false
        canSeek := false
        canGoNext := false
        canGoPrevious := false
        shuffle := false
        loopStatus := "None" } }

/-- Embedding of `mapPlaybackStatus(state)` (src/index.js:452). -/
def mapPlaybackStatus (state : Option String) : String :=
  let s := jsToLower (jsOrStr state "")
  if s = "playing" then "Playing"
  else if s = "paused" then "Paused"
  else if s = "loading" then "Playing"
  else "Stopped"

/-- Embedding of `mapLoopStatus(loop)` (src/index.js:466). -/
def mapLoopStatus (loop : Option String) : String :=
  let s := jsToLower (jsOrStr loop "")
  if s = "loop_one" then "Track"
  else if s = "loop" then "Playlist"
  else "None"

/-- Embedding of `hasSeekInfo(zone)` (src/index.js:504). -/
def hasSeekInfo (zone : Zone) : Bool :=
  match zone.now_playing with
  | some np => (normaliseNumber np.seek_position).isSome
  | none => false

/-- Embedding of `updateCapabilities(zone)` (src/index.js:358). -/
def updateCapabilities (zone : Zone) (p : PlayerState) : PlayerState :=
  { p with
    canControl := true
    canPlay := zone.is_play_allowed || zone.state = some "playing"
      || zone.state = some "paused" || zone.state = some "loading"
    canPause := zone.is_pause_allowed
    canSeek := zone.is_seek_allowed && hasSeekInfo zone
    canGoNext := zone.is_next_allowed
    canGoPrevious := zone.is_previous_allowed
    shuffle := match zone.settings with
      | some st => st.shuffle
      | none => false
    loopStatus := match zone.settings with
      | some st => mapLoopStatus st.loop
      | none => "None" }

/-- Embedding of the synchronous part of `updateMetadata(zone)`
(src/index.js:377): track id, length, and the three text fallback chains.
The asynchronous artwork resolution (a later metadata patch) is modelled
separately by the artwork cache. -/
def projectMetadata (zone : Zone) : Metadata :=
  let np := zone.now_playing.getD NowPlaying.empty
  let title := jsOrStr
    (pickText [np.title,
      optToJs (extractLine np.three_line "line1"),
      optToJs (extractLine np.two_line "line2"),
      optToJs (extractLine np.one_line "line1")])
    (jsOrStr zone.display_name "Roon")
  let artist := jsOrStr
    (pickText [np.artist, np.artist_line,
      optToJs (extractLine np.three_line "line2"),
      optToJs (extractLine np.two_line "line1")])
    "Roon"
  let album := jsOrStr
    (pickText [np.album,
      optToJs (extractLine np.three_line "line3")])
    "—"
  { trackid := objectPath ("zone/" ++ zone.zone_id)
    title := title
    artist := [artist]
    album := album
    length := (normaliseNumber np.length).map (fun q => Int.floor (q * 1000000))
    artUrl := none }

/-- Embedding of `updateSeekState(zone)` (src/index.js:437), with the
`Date.now()` read passed in as `now`. -/
def updateSeekState (now : ℚ) (zone : Zone) (s : BridgeState) : BridgeState :=
  let np := zone.now_playing.getD NowPlaying.empty
  { s with
    lastSeekSeconds := (normaliseNumber np.seek_position).getD 0
    lastSeekUpdate := now
    activeLengthSeconds := normaliseNumber np.length }

/-- Embedding of `updatePlaybackState(zone)` followed by the other updates
of `updateFromActiveZone(zone)` (src/index.js:345): capabilities, metadata,
playback state and seek state.  The status-line side effect is external. -/
def updateFromActiveZone (now : ℚ) (zone : Zone) (s : BridgeState) : BridgeState :=
  let p := updateCapabilities zone s.player
  let p := { p with metadata := projectMetadata zone }
  let p := { p with playbackStatus := mapPlaybackStatus zone.state }
  let s := { s with player := p, lastKnownZoneState := jsOrStr zone.state "stopped" }
  updateSeekState now zone s

/-- Embedding of `activateZone(zone)` (src/index.js:303): null resets to
the idle projection (keeping `canControl` when a transport session exists),
a zone becomes active and is projected. -/
def activateZone (now : ℚ) (zone : Option Zone) (s : BridgeState) : BridgeState :=
  match zone with
  | none =>
      { s with
        activeZoneId := none
        activeZone := none
        lastKnownZoneState := "stopped"
        lastSeekSeconds := 0
        activeLengthSeconds := none
        player :=
          { s.player with
            metadata := idleMetadata
            playbackStatus := "Stopped"
            canControl := s.transport
            canPlay := false
            canPause := false
            canSeek := false
            canGoNext := false
            canGoPrevious := false
            shuffle := false
            loopStatus := "None" } }
  | some z =>
      let s := { s with activeZoneId := some z.zone_id, activeZone := some z }
      updateFromActiveZone now z s

/-- Embedding of `matchesZonePreference(zone)` (src/index.js:287), with the
`ROON_MPRIS_ZONE` preference passed as `pref`. -/
def matchesZonePreference (pref : String) (zone : Zone) : Bool :=
  if pref = "" then false
  else if zone.zone_id ≠ "" && ciEq zone.zone_id pref then true
  else if strTruthy zone.display_name && ciEq (zone.display_name.getD "") pref then true
  else match zone.outputs with
    | some outs => outs.any (fun o =>
        match o with
        | none => false
        | some out =>
            (strTruthy out.output_id && ciEq (out.output_id.getD "") pref)
            || (strTruthy out.display_name && ciEq (out.display_name.getD "") pref))
    | none => false

/-- Embedding of `pickPreferredZone(zoneCandidates)` (src/index.js:275). -/
def pickPreferredZone (pref : String) (zoneCandidates : List Zone) : Option Zone :=
  match (if pref ≠ "" then zoneCandidates.find? (matchesZonePreference pref) else none) with
  | some matched => some matched
  | none => zoneCandidates.find? (fun z => z.state = some "playing")

/-- The pure selection at the heart of `selectAndActivateZone()`
(src/index.js:254): which zone the function activates, `none` meaning
`activateZone(null)`. -/
def selectZone (pref : String) (zones : List (String × Zone)) (cur : Option String) :
    Option Zone :=
  match zones.map (fun e => e.2) with
  | [] => none
  | c0 :: rest =>
      match pickPreferredZone pref (c0 :: rest) with
      | some preferred => some preferred
      | none =>
          match cur with
          | some c =>
              if c ≠ "" then
                match assocGet zones c with
                | some z => some z
                | none => some c0
              else some c0
          | none => some c0

/-- Embedding of `selectAndActivateZone()` (src/index.js:254). -/
def selectAndActivateZone (pref : String) (now : ℚ) (s : BridgeState) : BridgeState :=
  activateZone now (selectZone pref s.zones s.activeZoneId) s

/-- JavaScript falsiness of `activeZoneId` (`if (!activeZoneId)`): null or
the empty string. -/
def jsFalsyId : Option String → Bool
  | none => true
  | some s => s = ""

/-- One entry of `changeSet.zones_seek_changed`. -/
structure SeekUpdate where
  zone_id : String
  seek_position : JsVal := .null
  queue_time_remaining : JsVal := .null
deriving DecidableEq, Repr

/-- A `Changed` transport message (src/index.js:208): each sub-list may be
absent; an absent list's loop body never runs, exactly as an empty list's. -/
structure ChangeSet where
  zones_removed : Option (List String) := none
  zones_added : Option (List Zone) := none
  zones_changed : Option (List Zone) := none
  zones_seek_changed : Option (List SeekUpdate) := none
deriving DecidableEq, Repr

/-- An outbound call the bridge makes while processing an event: the
`player.seeked` notification, `transport.seek` and `transport.control`. -/
inductive Emit where
  | seeked (micros : Int)
  | transportSeek (zone_id : String) (mode : String) (seconds : ℚ)
  | transportControl (zone_id : String) (verb : String)
deriving DecidableEq, Repr

/-- One step of the `zones_removed` loop (src/index.js:210): delete the
registry entry and deactivate if it was the active zone. -/
def removeZoneStep (now : ℚ) (s : BridgeState) (zoneId : String) : BridgeState :=
  let s := { s with zones := assocDelete s.zones zoneId }
  if s.activeZoneId = some zoneId then activateZone now none s else s

/-- One step of the `zones_added` loop (src/index.js:220). -/
def addZoneStep (s : BridgeState) (zone : Zone) : BridgeState :=
  { s with zones := assocSet s.zones zone.zone_id zone }

/-- One step of the `zones_changed` loop (src/index.js:227): upsert, and
re-project when it is the active zone. -/
def changeZoneStep (now : ℚ) (s : BridgeState) (zone : Zone) : BridgeState :=
  let s := { s with zones := assocSet s.zones zone.zone_id zone }
  if s.activeZoneId = some zone.zone_id then activateZone now (some zone) s else s

/-- One step of the `zones_seek_changed` loop (src/index.js:236): patch the
registry entry's `now_playing.seek_position` and `queue_time_remaining`,
and for the active zone recompute the seek anchor and notify `seeked`.
In the source the registry entry and `activeZone` are the same object, so
the patch is mirrored into `activeZone` in the active case. -/
def applySeekUpdateStep (now : ℚ) (acc : BridgeState × List Emit) (u : SeekUpdate) :
    BridgeState × List Emit :=
  let s := acc.1
  match assocGet s.zones u.zone_id with
  | none => acc
  | some zone =>
      let np := zone.now_playing.getD NowPlaying.empty
      let zone' : Zone :=
        { zone with
          now_playing := some { np with seek_position := u.seek_position }
          queue_time_remaining := u.queue_time_remaining }
      let s := { s with zones := assocSet s.zones u.zone_id zone' }
      if s.activeZoneId = some u.zone_id then
        let s := { s with activeZone := some zone' }
        let s := updateSeekState now zone' s
        (s, acc.2 ++ [.seeked (Int.floor (jsNumOrZero u.seek_position * 1000000))])
      else (s, acc.2)

/-- Embedding of `onZonesChanged(changeSet)` (src/index.js:208): removals,
additions, changes and seek deltas in order, then a (re)selection exactly
when no active zone remains (`if (!activeZoneId)`). -/
def processChanged (pref : String) (now : ℚ) (s : BridgeState) (cs : ChangeSet) :
    BridgeState × List Emit :=
  let s := (cs.zones_removed.getD []).foldl (removeZoneStep now) s
  let s := (cs.zones_added.getD []).foldl addZoneStep s
  let s := (cs.zones_changed.getD []).foldl (changeZoneStep now) s
  let acc := (cs.zones_seek_changed.getD []).foldl (applySeekUpdateStep now) (s, [])
  if jsFalsyId acc.1.activeZoneId then (selectAndActivateZone pref now acc.1, acc.2)
  else acc

/-- Embedding of `onZonesSubscribed(zoneList)` (src/index.js:198): a full
snapshot replaces the registry, then selection runs. -/
def processSubscribed (pref : String) (now : ℚ) (s : BridgeState) (zoneList : List Zone) :
    BridgeState :=
  let s := { s with zones := zoneList.foldl (fun m z => assocSet m z.zone_id z) [] }
  selectAndActivateZone pref now s

/-- The `Unsubscribed` branch of the subscription callback
(src/index.js:173): empty the registry and deactivate. -/
def processUnsubscribed (now : ℚ) (s : BridgeState) : BridgeState :=
  activateZone now none { s with zones := [] }

/-- Embedding of `onCorePaired(core)`'s state effect (src/index.js:152):
the transport and image handles become non-null. -/
def processPaired (s : BridgeState) : BridgeState :=
  { s with activeCore := true, transport := true }

/-- Embedding of `onCoreUnpaired(core)` (src/index.js:184). -/
def processUnpaired (now : ℚ) (s : BridgeState) : BridgeState :=
  activateZone now none { s with activeCore := false, transport := false, zones := [] }

/-- Embedding of `ensureActiveZone()` (src/index.js:498): return the active
zone, lazily running selection first when there is none. -/
def ensureActiveZone (pref : String) (now : ℚ) (s : BridgeState) :
    BridgeState × Option Zone :=
  match s.activeZone with
  | some z => (s, some z)
  | none =>
      let s := selectAndActivateZone pref now s
      (s, s.activeZone)

/-- Embedding of `sendTransportCommand(control)` (src/index.js:477): resolve
a zone, drop silently without a transport, else send the control verb. -/
def sendTransportCommand (pref : String) (now : ℚ) (s : BridgeState) (control : String) :
    BridgeState × List Emit :=
  match ensureActiveZone pref now s with
  | (s, none) => (s, [])
  | (s, some zone) =>
      if ¬ s.transport then (s, [])
      else (s, [.transportControl zone.zone_id control])

/-- Embedding of the `seek` handler (src/index.js:115): relative seek by an
offset in microseconds.  The `transport.seek` call itself is emitted
unconditionally, exactly as the source dereferences `transport` without a
null check. -/
def handleSeek (pref : String) (now : ℚ) (s : BridgeState) (offset : ℚ) :
    BridgeState × List Emit :=
  match ensureActiveZone pref now s with
  | (s, none) => (s, [])
  | (s, some zone) => (s, [.transportSeek zone.zone_id "relative" (offset / 1000000)])

/-- A `SetPosition` event from the control surface: target track id (absent
or empty when the client sends none) and position in microseconds. -/
structure PositionEvent where
  trackId : Option String := none
  position : ℚ := 0
deriving DecidableEq, Repr

/-- Embedding of the `position` handler (src/index.js:123): resolve a zone,
drop a stale request whose truthy track id differs from the projected one,
else issue an absolute seek in seconds. -/
def handlePosition (pref : String) (now : ℚ) (s : BridgeState) (ev : PositionEvent) :
    BridgeState × List Emit :=
  match ensureActiveZone pref now s with
  | (s, none) => (s, [])
  | (s, some zone) =>
      match ev.trackId with
      | some t =>
          if t ≠ "" && t ≠ s.player.metadata.trackid then (s, [])
          else (s, [.transportSeek zone.zone_id "absolute" (ev.position / 1000000)])
      | none => (s, [.transportSeek zone.zone_id "absolute" (ev.position / 1000000)])

/-- Embedding of `player.getPosition` (src/index.js:135): extrapolate from
the seek anchor, clamp to the known length and to zero, floor to integer
microseconds. -/
def getPosition (s : BridgeState) (now : ℚ) : Int :=
  match s.activeZone with
  | none => 0
  | some _ =>
      let seconds : ℚ := s.lastSeekSeconds
      let seconds : ℚ :=
        if s.lastKnownZoneState = "playing" then seconds + (now - s.lastSeekUpdate) / 1000
        else seconds
      let seconds : ℚ :=
        match s.activeLengthSeconds with
        | some len => min seconds len
        | none => seconds
      max 0 (Int.floor (seconds * 1000000))

/-- The states the bridge can be in: every state produced from the initial
one by the handlers and the pairing/subscription callbacks.  Subscription
messages (`Subscribed`, `Changed`, `Unsubscribed`) can only arrive while a
core is paired, since `transport.subscribe_zones` registers the callback on
the paired core's transport — hence their `transport = true` hypotheses. -/
inductive Reachable (pref : String) : BridgeState → Prop where
  | init : Reachable pref initialBridgeState
  | paired {s} : Reachable pref s → Reachable pref (processPaired s)
  | unpaired {s} (now : ℚ) : Reachable pref s → Reachable pref (processUnpaired now s)
  | subscribed {s} (now : ℚ) (zoneList : List Zone) : Reachable pref s →
      s.transport = true → Reachable pref (processSubscribed pref now s zoneList)
  | changed {s} (now : ℚ) (cs : ChangeSet) : Reachable pref s →
      s.transport = true → Reachable pref (processChanged pref now s cs).1
  | unsubscribed {s} (now : ℚ) : Reachable pref s →
      s.transport = true → Reachable pref (processUnsubscribed now s)
  | control {s} (now : ℚ) (verb : String) : Reachable pref s →
      Reachable pref (sendTransportCommand pref now s verb).1
  | seek {s} (now offset : ℚ) : Reachable pref s →
      Reachable pref (handleSeek pref now s offset).1
  | position {s} (now : ℚ) (ev : PositionEvent) : Reachable pref s →
      Reachable pref (handlePosition pref now s ev).1

/-! ## Artwork cache (src/index.js:577) -/

/-- The artwork cache directory `path.join(os.tmpdir(), 'roon-mpris-art')`,
with `os.tmpdir()` modelled as `/tmp`. -/
def artCacheDir : String := "/tmp/roon-mpris-art"

/-- Embedding of the sanitisation in `keyToFilename(key)` (src/index.js:588):
`key.replace(/[^a-zA-Z0-9._-]/g, '_')`. -/
def sanitizeKey (key : String) : String :=
  ⟨key.data.map (fun c =>
    if c.isAlphanum || c = '.' || c = '_' || c = '-' then c else '_')⟩

/-- Embedding of `keyToFilename(key)` (src/index.js:588). -/
def keyToFilename (key : String) : String :=
  artCacheDir ++ "/" ++ sanitizeKey key ++ ".jpg"

/-- The `targetBase` of `resolveArtFile` (src/index.js:602):
`keyToFilename(key)` with its (always present) trailing `.jpg` stripped by
the `/\.(jpg|png)$/i` replace. -/
def artTargetBase (key : String) : String :=
  artCacheDir ++ "/" ++ sanitizeKey key

/-- The artwork cache's state: the `keyToFilePath` map, the set of files on
disk (for `fs.existsSync`), and a count of `imageSvc.get_image` fetches
issued, which is what the dedup claim is about. -/
structure ArtState where
  keyToFilePath : List (String × String) := []
  disk : List String := []
  fetchCount : Nat := 0
deriving DecidableEq, Repr

/-- What the synchronous prefix of `resolveArtFile` decides before any
asynchronous completion can run. -/
inductive ResolveOutcome where
  | nullResult
  | hit (fileUrl : String)
  | fetchIssued
deriving DecidableEq, Repr

/-- Embedding of the synchronous prefix of `resolveArtFile(imageKey)`
(src/index.js:594-605): the guard, the resolved-entry cache check, and the
issuing of `imageSvc.get_image`.  Everything up to and including the
`get_image` call runs before any other `resolveArtFile` call can interleave;
the completion (file write and registration) is `resolveArtComplete`.
Note the map is consulted but NOT written here: no pending marker is
registered before the fetch. -/
def resolveArtStart (hasImageSvc : Bool) (s : ArtState) (imageKey : String) :
    ArtState × ResolveOutcome :=
  if ¬ hasImageSvc || imageKey = "" then (s, .nullResult)
  else
    match assocGet s.keyToFilePath imageKey with
    | some existing =>
        if existing ∈ s.disk then (s, .hit ("file://" ++ existing))
        else ({ s with fetchCount := s.fetchCount + 1 }, .fetchIssued)
    | none => ({ s with fetchCount := s.fetchCount + 1 }, .fetchIssued)

/-- Embedding of a successful fetch completion (src/index.js:605-618):
write the bytes to `targetBase.{png|jpg}` by content type, re-probe the
extension, register the final path and return its file URI. -/
def resolveArtComplete (s : ArtState) (imageKey : String) (contentTypeIsPng : Bool) :
    ArtState × String :=
  let ext := if contentTypeIsPng then "png" else "jpg"
  let targetPath := artTargetBase imageKey ++ "." ++ ext
  let s := { s with disk := targetPath :: s.disk }
  let ext2 := if (artTargetBase imageKey ++ ".png") ∈ s.disk then "png" else "jpg"
  let finalPath := artTargetBase imageKey ++ "." ++ ext2
  ({ s with keyToFilePath := assocSet s.keyToFilePath imageKey finalPath },
   "file://" ++ finalPath)

/-! ## Claim-side definitions

The selection chain and the metadata fallback chains restated from the
specification's wording, to be compared with the embedded source functions
(refinement-style claims C3 and C6). -/

/-- Stated from the spec's words (§4.2 tie-break 1): a zone matches the
preference when its id, its display name, or any output's id or display
name case-insensitively equals the preference. -/
def claimPrefMatch (pref : String) (zone : Zone) : Bool :=
  ciEq zone.zone_id pref
  || (match zone.display_name with
      | some d => ciEq d pref
      | none => false)
  || (match zone.outputs with
      | some outs => outs.any (fun o =>
          match o with
          | some out =>
              (match out.output_id with
               | some i => ciEq i pref
               | none => false)
              || (match out.display_name with
                  | some d => ciEq d pref
                  | none => false)
          | none => false)
      | none => false)

/-- Stated from the claim's words (C3): tie-break order with first match
winning — (1) preference match when the preference is non-empty, (2) a
playing zone, (3) the zone matching the current active id if it still
exists, (4) any zone; null exactly on an empty registry. -/
def selectZoneClaim (pref : String) (zones : List (String × Zone)) (cur : Option String) :
    Option Zone :=
  let cs := zones.map (fun e => e.2)
  match (if pref ≠ "" then cs.find? (claimPrefMatch pref) else none) with
  | some z => some z
  | none =>
      match cs.find? (fun z => z.state = some "playing") with
      | some z => some z
      | none =>
          match cur with
          | some c =>
              match assocGet zones c with
              | some z => some z
              | none => cs.head?
          | none => cs.head?

/-- The claim C3 amended: tie-break (3) applies only when the current
active id is a non-empty string (the source's `if (activeZoneId && ...)`
treats an empty-string id as absent). -/
def selectZoneClaimAmended (pref : String) (zones : List (String × Zone))
    (cur : Option String) : Option Zone :=
  let cs := zones.map (fun e => e.2)
  match (if pref ≠ "" then cs.find? (claimPrefMatch pref) else none) with
  | some z => some z
  | none =>
      match cs.find? (fun z => z.state = some "playing") with
      | some z => some z
      | none =>
          match cur with
          | some c =>
              if c ≠ "" then
                match assocGet zones c with
                | some z => some z
                | none => cs.head?
              else cs.head?
          | none => cs.head?

/-- First non-empty candidate of a fallback chain (spec §4.3: "try each
candidate source in priority order, first non-empty wins"). -/
def firstNonEmpty : List (Option String) → Option String
  | [] => none
  | none :: rest => firstNonEmpty rest
  | some s :: rest => if s ≠ "" then some s else firstNonEmpty rest

/-- The title fallback chain as the claim C6 states it: explicit title,
3-line block's line 1, 2-line block's line 2, 1-line block's line 1, zone
display name, literal "Roon". -/
def titleChain (zone : Zone) : String :=
  let np := zone.now_playing.getD NowPlaying.empty
  (firstNonEmpty [extractText np.title,
    extractLine np.three_line "line1",
    extractLine np.two_line "line2",
    extractLine np.one_line "line1",
    zone.display_name]).getD "Roon"

/-- The artist fallback chain as the claim C6 states it: explicit artist,
artist line, 3-line block's line 2, 2-line block's line 1, "Roon". -/
def artistChain (zone : Zone) : String :=
  let np := zone.now_playing.getD NowPlaying.empty
  (firstNonEmpty [extractText np.artist,
    extractText np.artist_line,
    extractLine np.three_line "line2",
    extractLine np.two_line "line1"]).getD "Roon"

/-- The album fallback chain as the claim C6 states it: explicit album,
3-line block's line 3, the literal placeholder. -/
def albumChain (zone : Zone) : String :=
  let np := zone.now_playing.getD NowPlaying.empty
  (firstNonEmpty [extractText np.album,
    extractLine np.three_line "line3"]).getD "—"

/-! ## Concrete fixtures used by witnesses and counterexamples -/

/-- A zone carrying only a structured three-line block (claim C6's example). -/
def threeLineZone : Zone :=
  { zone_id := "z6"
    now_playing := some
      { three_line := .obj [("line1", .str "T"), ("line2", .str "A"), ("line3", .str "Al")] } }

/-- A playing zone with an explicit title. -/
def songZone : Zone :=
  { zone_id := "z1"
    state := some "playing"
    now_playing := some { title := .str "Song" } }

/-- A stopped zone with a different title. -/
def otherZone : Zone :=
  { zone_id := "z2"
    now_playing := some { title := .str "Other" } }

/-- A zone whose id is the empty string (JS-falsy). -/
def emptyIdZone : Zone := { zone_id := "", state := some "stopped" }

/-- A stopped zone with id "b". -/
def stoppedB : Zone := { zone_id := "b", state := some "stopped" }

/-- A playing zone with id "b". -/
def playingB : Zone := { zone_id := "b", state := some "playing" }

/-- A state with `songZone` and `otherZone` subscribed and `songZone` active. -/
def twoZoneState : BridgeState :=
  processSubscribed "" 0 initialBridgeState [songZone, otherZone]

/-- A state with only the empty-id zone subscribed (and hence active). -/
def emptyIdState : BridgeState :=
  processSubscribed "" 0 initialBridgeState [emptyIdZone]

/-- A state with one zone of id "x" subscribed and active. -/
def oneZoneState : BridgeState :=
  processSubscribed "" 0 initialBridgeState [{ zone_id := "x" }]

/-- A change-set removing only zone "x". -/
def removeXCs : ChangeSet := { zones_removed := some ["x"] }

/-- A change-set removing only zone "z1". -/
def removeZ1Cs : ChangeSet := { zones_removed := some ["z1"] }

/-- A change-set adding only the playing zone "b". -/
def addPlayingBCs : ChangeSet := { zones_added := some [playingB] }

/-- A state with `songZone` and `otherZone` subscribed, used by the seek
delta witness (active zone is "z1"). -/
def seekFixtureState : BridgeState := twoZoneState

/-- A seek delta for zone "z1". -/
def seekFixtureUpdate : SeekUpdate :=
  { zone_id := "z1", seek_position := .num 7, queue_time_remaining := .num 3 }

/-- An anchor state for the position estimator witness: playing, anchored
at 10 s at wall-clock 0, with a known length of 200 s. -/
def anchorState : BridgeState :=
  { initialBridgeState with
    activeZone := some { zone_id := "d" }
    lastSeekSeconds := 10
    lastSeekUpdate := 0
    lastKnownZoneState := "playing"
    activeLengthSeconds := some 200 }

/-- An anchor state with a negative known length (claim C5's counterexample). -/
def negLengthState : BridgeState :=
  { initialBridgeState with
    activeZone := some { zone_id := "d" }
    lastSeekSeconds := 5
    activeLengthSeconds := some (-1) }

/-- The initial state right after pairing, before any zone subscription. -/
def pairedInitialState : BridgeState := processPaired initialBridgeState

/-! ## Helper lemmas -/

theorem jsToLower_ne_empty {s : String} (h : s ≠ "") : jsToLower s ≠ "" := by
  intro hc
  apply h
  have hdata : s.data.map Char.toLower = [] := congrArg String.data hc
  have hnil : s.data = [] := List.map_eq_nil_iff.mp hdata
  cases s
  exact congrArg String.mk hnil

theorem ciEq_empty_left {p : String} (hp : p ≠ "") : ciEq "" p = false := by
  simp only [ciEq]
  have h0 : jsToLower "" = "" := rfl
  rw [h0]
  simp [Ne.symm (jsToLower_ne_empty hp)]

theorem find?_congr {α : Type} (l : List α) (p q : α → Bool) (h : ∀ a, p a = q a) :
    l.find? p = l.find? q := by
  induction l with
  | nil => rfl
  | cons a rest ih => simp only [List.find?, h a]; rw [ih]

/-! ## C1: artwork fetch deduplication -/

/-- Claim C1 (counterexample).  Two resolve calls for the same unresolved
key, both started before either fetch completes (so the second call's cache
check runs against the unchanged map), issue two fetches, not one: the
source registers the key only on fetch completion, so there is no
pending-registration check before issuing the request. -/
theorem c1_art_dedup_cex :
    assocGet ({} : ArtState).keyToFilePath "k" = none
    ∧ (resolveArtStart true ({} : ArtState) "k").2 = ResolveOutcome.fetchIssued
    ∧ (resolveArtStart true (resolveArtStart true ({} : ArtState) "k").1 "k").2
        = ResolveOutcome.fetchIssued
    ∧ ((resolveArtStart true (resolveArtStart true ({} : ArtState) "k").1 "k").1).fetchCount
        ≠ 1 := by
  refine ⟨rfl, rfl, rfl, ?_⟩
  decide

/-- Claim C1 (amended): the artwork cache deduplicates resolved entries
only.  A resolve call for a non-empty key issues no fetch exactly when the
key is already mapped to a path that exists on disk (returning that path's
file URI without touching the state); for an unregistered key it issues a
fetch without registering anything, so a second resolve call started while
that fetch is pending issues a second fetch. -/
theorem c1_art_dedup_amended (s : ArtState) (key p : String) (hk : key ≠ "") :
    (assocGet s.keyToFilePath key = some p → p ∈ s.disk →
      resolveArtStart true s key = (s, .hit ("file://" ++ p)))
    ∧ (assocGet s.keyToFilePath key = none →
      resolveArtStart true s key = ({ s with fetchCount := s.fetchCount + 1 }, .fetchIssued)
      ∧ ((resolveArtStart true (resolveArtStart true s key).1 key).1).fetchCount
          = s.fetchCount + 2) := by
  constructor
  · intro hmap hdisk
    simp [resolveArtStart, hk, hmap, hdisk]
  · intro hmap
    have h1 : resolveArtStart true s key
        = ({ s with fetchCount := s.fetchCount + 1 }, .fetchIssued) := by
      simp [resolveArtStart, hk, hmap]
    refine ⟨h1, ?_⟩
    rw [h1]
    simp [resolveArtStart, hk, hmap]

/-- Witness for C1's amended theorem at a concrete input. -/
theorem c1_art_dedup_witness :
    (assocGet ({} : ArtState).keyToFilePath "k" = some "p" → "p" ∈ ({} : ArtState).disk →
      resolveArtStart true ({} : ArtState) "k" = ({}, .hit ("file://" ++ "p")))
    ∧ (assocGet ({} : ArtState).keyToFilePath "k" = none →
      resolveArtStart true ({} : ArtState) "k"
        = ({ ({} : ArtState) with fetchCount := ({} : ArtState).fetchCount + 1 }, .fetchIssued)
      ∧ ((resolveArtStart true (resolveArtStart true ({} : ArtState) "k").1 "k").1).fetchCount
          = ({} : ArtState).fetchCount + 2) :=
  c1_art_dedup_amended {} "k" "p" (by decide)

/-! ## C5: position estimator -/

/-- Claim C5 (counterexample).  The claimed bound "the result never exceeds
lengthSeconds × 1,000,000" fails when the known length is negative: with
anchorSeconds 5 and lengthSeconds −1 the position is clamped to 0, which
exceeds −1,000,000. -/
theorem c5_position_cex :
    negLengthState.activeLengthSeconds = some (-1)
    ∧ getPosition negLengthState 0 = 0
    ∧ ¬ ((getPosition negLengthState 0 : ℚ) ≤ (-1) * 1000000) := by
  have h0 : getPosition negLengthState 0 = 0 := by
    simp [getPosition, negLengthState, initialBridgeState]
    norm_num
  refine ⟨rfl, h0, ?_⟩
  rw [h0]
  norm_num

/-- The floor/clamp exchange at the heart of `getPosition`: clamping the
floored microseconds below by 0 equals flooring the zero-clamped seconds. -/
theorem max_floor_comm (m : ℚ) :
    max (0 : ℤ) (Int.floor (m * 1000000)) = Int.floor (max (0 : ℚ) m * 1000000) := by
  rcases le_or_lt 0 m with h | h
  · rw [max_eq_right h,
      max_eq_right (Int.floor_nonneg.mpr (mul_nonneg h (by norm_num)))]
  · rw [max_eq_left h.le, zero_mul, Int.floor_zero, max_eq_left]
    have hneg : m * 1000000 < 0 := mul_neg_of_neg_of_pos h (by norm_num)
    have hle := Int.floor_le (m * 1000000)
    have hcast : (Int.floor (m * 1000000) : ℚ) < 0 := lt_of_le_of_lt hle hneg
    exact_mod_cast hcast.le

/-- Monotonicity of the clamped, floored microsecond conversion in the
extrapolated seconds. -/
theorem clampFloor_mono (a b : ℚ) (lenOpt : Option ℚ) (hab : a ≤ b) :
    max (0 : ℤ) (Int.floor ((match lenOpt with
        | some len => min a len
        | none => a) * 1000000))
      ≤ max 0 (Int.floor ((match lenOpt with
        | some len => min b len
        | none => b) * 1000000)) := by
  have h : (match lenOpt with | some len => min a len | none => a)
      ≤ (match lenOpt with | some len => min b len | none => b) := by
    cases lenOpt with
    | none => exact hab
    | some len => exact min_le_min hab le_rfl
  exact max_le_max le_rfl (Int.floor_le_floor (mul_le_mul_of_nonneg_right h (by norm_num)))

/-- Claim C5 (amended): with a zone active and reading clamp(e, 0, L) as
max(0, min(e, L)), `getPosition` returns ⌊clamp(e, 0, L) · 1,000,000⌋ where
e extrapolates the anchor by the elapsed wall-clock milliseconds when
playing and freezes it otherwise; the result is a non-negative integer,
non-decreasing in `now` for a playing anchor and constant for a paused one,
and bounded by lengthSeconds × 1,000,000 whenever the known length is
non-negative (a negative known length clamps to 0 instead, see the
counterexample). -/
theorem c5_position_amended (s : BridgeState) (now now' : ℚ) (z : Zone)
    (hz : s.activeZone = some z) (hn : now ≤ now') :
    (getPosition s now = Int.floor (max (0 : ℚ)
      ((match s.activeLengthSeconds with
       | some len => min (s.lastSeekSeconds +
          (if s.lastKnownZoneState = "playing" then (now - s.lastSeekUpdate) / 1000 else 0)) len
       | none => s.lastSeekSeconds +
          (if s.lastKnownZoneState = "playing" then (now - s.lastSeekUpdate) / 1000 else 0)) : ℚ)
      * 1000000))
    ∧ 0 ≤ getPosition s now
    ∧ (if s.lastKnownZoneState = "playing"
        then getPosition s now ≤ getPosition s now'
        else getPosition s now' = getPosition s now)
    ∧ (match s.activeLengthSeconds with
        | some len => 0 ≤ len → (getPosition s now : ℚ) ≤ len * 1000000
        | none => True) := by
  have hpos : ∀ t : ℚ, getPosition s t
      = max 0 (Int.floor ((match s.activeLengthSeconds with
          | some len => min (s.lastSeekSeconds +
              (if s.lastKnownZoneState = "playing" then (t - s.lastSeekUpdate) / 1000 else 0)) len
          | none => s.lastSeekSeconds +
              (if s.lastKnownZoneState = "playing" then (t - s.lastSeekUpdate) / 1000 else 0))
          * 1000000)) := by
    intro t
    by_cases hp : s.lastKnownZoneState = "playing" <;>
      cases hl : s.activeLengthSeconds <;>
        simp [getPosition, hz, hp, hl]
  refine ⟨?_, ?_, ?_, ?_⟩
  · rw [hpos now]
    cases hl : s.activeLengthSeconds <;>
      simp only [hl] <;>
        exact max_floor_comm _
  · rw [hpos now]; exact le_max_left _ _
  · by_cases hp : s.lastKnownZoneState = "playing"
    · rw [if_pos hp, hpos now, hpos now']
      apply clampFloor_mono
      have h1 : (now - s.lastSeekUpdate) / 1000 ≤ (now' - s.lastSeekUpdate) / 1000 := by
        linarith
      simp [hp]
      linarith
    · rw [if_neg hp]
      simp [getPosition, hz, hp]
  · cases hl : s.activeLengthSeconds with
    | none => trivial
    | some len =>
        intro hlen
        rw [hpos now]
        simp only [hl]
        rw [Int.cast_max]
        push_cast
        apply max_le
        · exact mul_nonneg hlen (by norm_num)
        · exact le_trans (Int.floor_le _)
            (mul_le_mul_of_nonneg_right (min_le_right _ _) (by norm_num))

/-- Witness for C5's amended theorem at a concrete input: the playing
anchor of `anchorState` read at wall-clock times 1000 and 2000. -/
theorem c5_position_witness :
    (getPosition anchorState 1000 = Int.floor (max (0 : ℚ)
      ((match anchorState.activeLengthSeconds with
       | some len => min (anchorState.lastSeekSeconds +
          (if anchorState.lastKnownZoneState = "playing"
           then ((1000 : ℚ) - anchorState.lastSeekUpdate) / 1000 else 0)) len
       | none => anchorState.lastSeekSeconds +
          (if anchorState.lastKnownZoneState = "playing"
           then ((1000 : ℚ) - anchorState.lastSeekUpdate) / 1000 else 0)) : ℚ)
      * 1000000))
    ∧ 0 ≤ getPosition anchorState 1000
    ∧ (if anchorState.lastKnownZoneState = "playing"
        then getPosition anchorState 1000 ≤ getPosition anchorState 2000
        else getPosition anchorState 2000 = getPosition anchorState 1000)
    ∧ (match anchorState.activeLengthSeconds with
        | some len => 0 ≤ len → (getPosition anchorState 1000 : ℚ) ≤ len * 1000000
        | none => True) :=
  c5_position_amended anchorState 1000 2000 { zone_id := "d" } rfl (by norm_num)

/-! ## C6: metadata fallback chains -/

theorem pickText_eq_firstNonEmpty (l : List JsVal) :
    pickText l = firstNonEmpty (l.map extractText) := by
  induction l with
  | nil => rfl
  | cons v rest ih =>
      simp only [List.map]
      cases h : extractText v with
      | none => simp [pickText, firstNonEmpty, h, ih]
      | some t => by_cases ht : t = "" <;> simp [pickText, firstNonEmpty, h, ht, ih]

theorem firstNonEmpty_ne_empty {l : List (Option String)} {s : String}
    (h : firstNonEmpty l = some s) : s ≠ "" := by
  induction l with
  | nil => simp [firstNonEmpty] at h
  | cons a rest ih =>
      cases a with
      | none => exact ih h
      | some t =>
          by_cases ht : t = ""
          · rw [firstNonEmpty, if_neg (by simpa using ht)] at h
            exact ih h
          · rw [firstNonEmpty, if_pos ht] at h
            cases h
            exact ht

theorem firstNonEmpty_tail_congr (a : Option String) {l l' : List (Option String)}
    (h : firstNonEmpty l = firstNonEmpty l') :
    firstNonEmpty (a :: l) = firstNonEmpty (a :: l') := by
  cases a with
  | none => simpa [firstNonEmpty] using h
  | some t =>
      by_cases ht : t = "" <;> simp [firstNonEmpty, ht, h]

theorem firstNonEmpty_opt_cons (x : Option String) (l : List (Option String)) :
    firstNonEmpty (extractText (optToJs x) :: l) = firstNonEmpty (x :: l) := by
  cases x with
  | none => rfl
  | some s =>
      by_cases hs : s = ""
      · subst hs
        simp [extractText, optToJs, JsVal.truthy, firstNonEmpty]
      · simp [extractText, optToJs, JsVal.truthy, hs, firstNonEmpty]

theorem firstNonEmpty_some_append {l : List (Option String)} {s : String}
    (h : firstNonEmpty l = some s) (l2 : List (Option String)) :
    firstNonEmpty (l ++ l2) = some s := by
  induction l with
  | nil => simp [firstNonEmpty] at h
  | cons a rest ih =>
      cases a with
      | none => exact ih h
      | some t =>
          by_cases ht : t = ""
          · rw [firstNonEmpty, if_neg (by simpa using ht)] at h
            simpa [firstNonEmpty, ht] using ih h
          · rw [firstNonEmpty, if_pos ht] at h
            simpa [firstNonEmpty, ht] using h

theorem firstNonEmpty_none_append {l : List (Option String)}
    (h : firstNonEmpty l = none) (l2 : List (Option String)) :
    firstNonEmpty (l ++ l2) = firstNonEmpty l2 := by
  induction l with
  | nil => rfl
  | cons a rest ih =>
      cases a with
      | none => exact ih h
      | some t =>
          by_cases ht : t = ""
          · rw [firstNonEmpty, if_neg (by simpa using ht)] at h
            simpa [firstNonEmpty, ht] using ih h
          · rw [firstNonEmpty, if_pos ht] at h
            cases h

theorem jsOrStr_firstNonEmpty (l : List (Option String)) (d : String) :
    jsOrStr (firstNonEmpty l) d = (firstNonEmpty l).getD d := by
  cases h : firstNonEmpty l with
  | none => rfl
  | some s => simp [jsOrStr, firstNonEmpty_ne_empty h]

theorem firstNonEmpty_getD_snoc (l : List (Option String)) (x : Option String) (d : String) :
    (firstNonEmpty (l ++ [x])).getD d = jsOrStr (firstNonEmpty l) (jsOrStr x d) := by
  cases h : firstNonEmpty l with
  | some s =>
      rw [firstNonEmpty_some_append h]
      simp [jsOrStr, firstNonEmpty_ne_empty h]
  | none =>
      rw [firstNonEmpty_none_append h]
      cases x with
      | none => rfl
      | some t => by_cases ht : t = "" <;> simp [firstNonEmpty, jsOrStr, ht]

/-- Claim C6: the projected metadata text fields resolve by the claimed
first-non-empty fallback chains (title through the explicit title, the
3-line block's line 1, the 2-line block's line 2, the 1-line block's
line 1, the zone display name and "Roon"; artist through the explicit
artist, the artist line, the 3-line block's line 2, the 2-line block's
line 1 and "Roon"; album through the explicit album, the 3-line block's
line 3 and the placeholder), and in particular a zone carrying only
`three_line = {line1: "T", line2: "A", line3: "Al"}` projects title "T",
artist "A", album "Al". -/
theorem c6_metadata_fallback (zone : Zone) :
    (projectMetadata zone).title = titleChain zone
    ∧ (projectMetadata zone).artist = [artistChain zone]
    ∧ (projectMetadata zone).album = albumChain zone
    ∧ (projectMetadata threeLineZone).title = "T"
    ∧ (projectMetadata threeLineZone).artist = ["A"]
    ∧ (projectMetadata threeLineZone).album = "Al" := by
  have conv2 : ∀ (e1 e2 : Option String) (b c : Option String),
      firstNonEmpty [e1, e2, extractText (optToJs b), extractText (optToJs c)]
        = firstNonEmpty [e1, e2, b, c] := by
    intro e1 e2 b c
    apply firstNonEmpty_tail_congr e1
    apply firstNonEmpty_tail_congr e2
    exact (firstNonEmpty_opt_cons b _).trans
      (firstNonEmpty_tail_congr b (firstNonEmpty_opt_cons c []))
  have conv3 : ∀ (e1 : Option String) (a b c : Option String),
      firstNonEmpty [e1, extractText (optToJs a), extractText (optToJs b),
        extractText (optToJs c)] = firstNonEmpty [e1, a, b, c] := by
    intro e1 a b c
    exact (firstNonEmpty_tail_congr e1 (firstNonEmpty_opt_cons a _)).trans (conv2 e1 a b c)
  have conv1 : ∀ (e1 : Option String) (a : Option String),
      firstNonEmpty [e1, extractText (optToJs a)] = firstNonEmpty [e1, a] := by
    intro e1 a
    exact firstNonEmpty_tail_congr e1 (firstNonEmpty_opt_cons a [])
  refine ⟨?_, ?_, ?_, by decide, by decide, by decide⟩
  · show jsOrStr (pickText _) _ = _
    rw [pickText_eq_firstNonEmpty]
    simp only [List.map]
    rw [conv3]
    show _ = (firstNonEmpty ([extractText ((zone.now_playing.getD NowPlaying.empty).title),
      extractLine (zone.now_playing.getD NowPlaying.empty).three_line "line1",
      extractLine (zone.now_playing.getD NowPlaying.empty).two_line "line2",
      extractLine (zone.now_playing.getD NowPlaying.empty).one_line "line1"]
      ++ [zone.display_name])).getD "Roon"
    rw [firstNonEmpty_getD_snoc]
  · show [jsOrStr (pickText _) _] = [_]
    rw [pickText_eq_firstNonEmpty]
    simp only [List.map]
    rw [conv2, jsOrStr_firstNonEmpty]
    rfl
  · show jsOrStr (pickText _) _ = _
    rw [pickText_eq_firstNonEmpty]
    simp only [List.map]
    rw [conv1, jsOrStr_firstNonEmpty]
    rfl

/-! ## C3: zone selection -/

theorem strTruthy_ciEq_eq (pref : String) (hp : pref ≠ "") (f : Option String) :
    (strTruthy f && ciEq (f.getD "") pref)
      = (match f with
         | some i => ciEq i pref
         | none => false) := by
  cases f with
  | none => simp [strTruthy]
  | some i =>
      by_cases h : i = ""
      · simp [strTruthy, h, ciEq_empty_left hp]
      · simp [strTruthy, h]

theorem matchesZonePreference_eq_claim (pref : String) (z : Zone) (hp : pref ≠ "") :
    matchesZonePreference pref z = claimPrefMatch pref z := by
  have hA : (decide (z.zone_id ≠ "") && ciEq z.zone_id pref) = ciEq z.zone_id pref := by
    by_cases h : z.zone_id = ""
    · simp [h, ciEq_empty_left hp]
    · simp [h]
  have hB := strTruthy_ciEq_eq pref hp z.display_name
  have hO : (match z.outputs with
      | some outs => outs.any (fun o =>
          match o with
          | none => false
          | some out =>
              (strTruthy out.output_id && ciEq (out.output_id.getD "") pref)
              || (strTruthy out.display_name && ciEq (out.display_name.getD "") pref))
      | none => false)
      = (match z.outputs with
      | some outs => outs.any (fun o =>
          match o with
          | some out =>
              (match out.output_id with
               | some i => ciEq i pref
               | none => false)
              || (match out.display_name with
                  | some d => ciEq d pref
                  | none => false)
          | none => false)
      | none => false) := by
    cases z.outputs with
    | none => rfl
    | some outs =>
        show outs.any _ = outs.any _
        congr 1
        funext o
        cases o with
        | none => rfl
        | some out =>
            dsimp only
            rw [strTruthy_ciEq_eq pref hp out.output_id,
              strTruthy_ciEq_eq pref hp out.display_name]
  unfold matchesZonePreference claimPrefMatch
  rw [if_neg hp, hA, hB, hO]
  by_cases h1 : ciEq z.zone_id pref
  · simp [h1]
  · by_cases h2 : (match z.display_name with
      | some d => ciEq d pref
      | none => false) = true
    · simp [h1, h2]
    · simp [h1, h2]

/-- Claim C3 (counterexample).  With no preference, no playing zone, and a
current active id that is the empty string, the claimed tie-break (3) picks
the still-existing zone whose id is "", but the source's
`if (activeZoneId && ...)` treats the empty-string id as absent and falls
through to tie-break (4), picking the first candidate instead. -/
theorem c3_selection_cex :
    selectZone "" [("b", stoppedB), ("", emptyIdZone)] (some "") = some stoppedB
    ∧ selectZoneClaim "" [("b", stoppedB), ("", emptyIdZone)] (some "") = some emptyIdZone
    ∧ stoppedB ≠ emptyIdZone := by
  refine ⟨rfl, rfl, ?_⟩
  decide

/-- Claim C3 (amended): zone selection is the pure function of the
registry, preference and current active id embodied by `selectZone`; it
equals the claimed tie-break chain — (1) case-insensitive preference match
on id, display name or any output's id/display name, (2) first playing
zone, (3) the zone matching the current active id if that id is a
NON-EMPTY string and still exists (the source treats an empty-string
active id as absent), (4) the first candidate — and it returns null
exactly when the registry is empty. -/
theorem c3_selection_amended (pref : String) (zones : List (String × Zone))
    (cur : Option String) :
    selectZone pref zones cur = selectZoneClaimAmended pref zones cur
    ∧ (selectZone pref zones cur = none ↔ zones = []) := by
  constructor
  · unfold selectZone selectZoneClaimAmended pickPreferredZone
    cases hcs : zones.map (fun e => e.2) with
    | nil =>
        have hz : zones = [] := List.map_eq_nil_iff.mp hcs
        subst hz
        cases cur with
        | none => simp
        | some c => by_cases hc : c = "" <;> simp [hc, assocGet]
    | cons c0 cr =>
        simp only [hcs]
        have hfind : (if pref ≠ "" then (c0 :: cr).find? (matchesZonePreference pref) else none)
            = (if pref ≠ "" then (c0 :: cr).find? (claimPrefMatch pref) else none) := by
          by_cases hp : pref = ""
          · simp [hp]
          · simp only [if_pos hp]
            exact find?_congr _ _ _ (fun z => matchesZonePreference_eq_claim pref z hp)
        rw [hfind]
        cases hpf : (if pref ≠ "" then (c0 :: cr).find? (claimPrefMatch pref) else none) with
        | some m => simp
        | none =>
            cases hpl : (c0 :: cr).find? (fun z => z.state = some "playing") with
            | some m => simp
            | none =>
                cases cur with
                | none => simp
                | some c =>
                    by_cases hc : c = ""
                    · simp [hc]
                    · cases hg : assocGet zones c <;> simp [hc, hg]
  · constructor
    · intro h
      cases hcs : zones.map (fun e => e.2) with
      | nil => exact List.map_eq_nil_iff.mp hcs
      | cons c0 cr =>
          exfalso
          unfold selectZone at h
          rw [hcs] at h
          dsimp only at h
          cases hpf : pickPreferredZone pref (c0 :: cr) with
          | some m => rw [hpf] at h; cases h
          | none =>
              rw [hpf] at h
              cases cur with
              | none => cases h
              | some c =>
                  by_cases hc : c = ""
                  · simp [hc] at h
                  · cases hg : assocGet zones c <;> simp [hc, hg] at h
    · intro h
      subst h
      rfl

/-! ## C7: seek delta frame effect -/

theorem assocGet_set_self {α : Type} (m : List (String × α)) (k : String) (v : α) :
    assocGet (assocSet m k v) k = some v := by
  induction m with
  | nil => simp [assocSet, assocGet]
  | cons e rest ih =>
      by_cases h : e.1 = k
      · simp [assocSet, assocGet, h]
      · simpa [assocSet, assocGet, h] using ih

theorem assocGet_set_ne {α : Type} (m : List (String × α)) (k k' : String) (v : α)
    (h : k' ≠ k) : assocGet (assocSet m k v) k' = assocGet m k' := by
  induction m with
  | nil => simp [assocSet, assocGet, List.find?, Ne.symm h]
  | cons e rest ih =>
      by_cases he : e.1 = k
      · simp [assocSet, assocGet, List.find?, he, Ne.symm h]
      · by_cases he' : e.1 = k'
        · simp [assocSet, assocGet, List.find?, he, he', h]
        · simpa [assocSet, assocGet, List.find?, he, he'] using ih

/-- Claim C7: applying a seek delta for zone id z patches only that
registry entry's `now_playing.seek_position` and zone-level
`queue_time_remaining` (all other `now_playing` and zone fields, and all
other registry entries, unchanged); it is a full no-op when z is unknown;
and exactly when z is the active zone it recomputes the seek anchor from
the patched entry and emits one seeked notification carrying
⌊seek_position · 1,000,000⌋ microseconds, otherwise it touches nothing
but the registry entry and emits nothing. -/
theorem c7_seek_delta (now : ℚ) (s : BridgeState) (es : List Emit) (u : SeekUpdate)
    (k : String) (hk : k ≠ u.zone_id) :
    match assocGet s.zones u.zone_id with
    | none => applySeekUpdateStep now (s, es) u = (s, es)
    | some zone =>
        (assocGet (applySeekUpdateStep now (s, es) u).1.zones u.zone_id
          = some { zone with
              now_playing := some
                { zone.now_playing.getD NowPlaying.empty with seek_position := u.seek_position }
              queue_time_remaining := u.queue_time_remaining })
        ∧ assocGet (applySeekUpdateStep now (s, es) u).1.zones k = assocGet s.zones k
        ∧ ({ zone.now_playing.getD NowPlaying.empty with
              seek_position := u.seek_position } : NowPlaying).title
            = (zone.now_playing.getD NowPlaying.empty).title
        ∧ ({ zone.now_playing.getD NowPlaying.empty with
              seek_position := u.seek_position } : NowPlaying).artist
            = (zone.now_playing.getD NowPlaying.empty).artist
        ∧ ({ zone.now_playing.getD NowPlaying.empty with
              seek_position := u.seek_position } : NowPlaying).artist_line
            = (zone.now_playing.getD NowPlaying.empty).artist_line
        ∧ ({ zone.now_playing.getD NowPlaying.empty with
              seek_position := u.seek_position } : NowPlaying).album
            = (zone.now_playing.getD NowPlaying.empty).album
        ∧ ({ zone.now_playing.getD NowPlaying.empty with
              seek_position := u.seek_position } : NowPlaying).one_line
            = (zone.now_playing.getD NowPlaying.empty).one_line
        ∧ ({ zone.now_playing.getD NowPlaying.empty with
              seek_position := u.seek_position } : NowPlaying).two_line
            = (zone.now_playing.getD NowPlaying.empty).two_line
        ∧ ({ zone.now_playing.getD NowPlaying.empty with
              seek_position := u.seek_position } : NowPlaying).three_line
            = (zone.now_playing.getD NowPlaying.empty).three_line
        ∧ ({ zone.now_playing.getD NowPlaying.empty with
              seek_position := u.seek_position } : NowPlaying).length
            = (zone.now_playing.getD NowPlaying.empty).length
        ∧ ({ zone.now_playing.getD NowPlaying.empty with
              seek_position := u.seek_position } : NowPlaying).image_key
            = (zone.now_playing.getD NowPlaying.empty).image_key
        ∧ (applySeekUpdateStep now (s, es) u).1.activeZoneId = s.activeZoneId
        ∧ (if s.activeZoneId = some u.zone_id
            then (applySeekUpdateStep now (s, es) u).1.lastSeekSeconds
                  = (normaliseNumber u.seek_position).getD 0
              ∧ (applySeekUpdateStep now (s, es) u).1.lastSeekUpdate = now
              ∧ (applySeekUpdateStep now (s, es) u).1.activeLengthSeconds
                  = normaliseNumber (zone.now_playing.getD NowPlaying.empty).length
              ∧ (applySeekUpdateStep now (s, es) u).2
                  = es ++ [.seeked (Int.floor (jsNumOrZero u.seek_position * 1000000))]
            else (applySeekUpdateStep now (s, es) u).1
                  = { s with zones := (applySeekUpdateStep now (s, es) u).1.zones }
              ∧ (applySeekUpdateStep now (s, es) u).2 = es) := by
  cases hget : assocGet s.zones u.zone_id with
  | none => simp [applySeekUpdateStep, hget]
  | some zone =>
      by_cases hact : s.activeZoneId = some u.zone_id
      · simp [applySeekUpdateStep, hget, hact, updateSeekState,
          assocGet_set_self, assocGet_set_ne _ _ _ _ hk]
      · simp [applySeekUpdateStep, hget, hact, updateSeekState,
          assocGet_set_self, assocGet_set_ne _ _ _ _ hk]

/-- Witness for C7 at a concrete input: the two-zone fixture with active
zone "z1", a seek delta for "z1", and the untouched key "z2". -/
theorem c7_seek_delta_witness :
    match assocGet seekFixtureState.zones seekFixtureUpdate.zone_id with
    | none => applySeekUpdateStep 5 (seekFixtureState, []) seekFixtureUpdate
        = (seekFixtureState, [])
    | some zone =>
        (assocGet (applySeekUpdateStep 5 (seekFixtureState, []) seekFixtureUpdate).1.zones
            seekFixtureUpdate.zone_id
          = some { zone with
              now_playing := some
                { zone.now_playing.getD NowPlaying.empty with
                    seek_position := seekFixtureUpdate.seek_position }
              queue_time_remaining := seekFixtureUpdate.queue_time_remaining })
        ∧ assocGet (applySeekUpdateStep 5 (seekFixtureState, []) seekFixtureUpdate).1.zones "z2"
            = assocGet seekFixtureState.zones "z2"
        ∧ ({ zone.now_playing.getD NowPlaying.empty with
              seek_position := seekFixtureUpdate.seek_position } : NowPlaying).title
            = (zone.now_playing.getD NowPlaying.empty).title
        ∧ ({ zone.now_playing.getD NowPlaying.empty with
              seek_position := seekFixtureUpdate.seek_position } : NowPlaying).artist
            = (zone.now_playing.getD NowPlaying.empty).artist
        ∧ ({ zone.now_playing.getD NowPlaying.empty with
              seek_position := seekFixtureUpdate.seek_position } : NowPlaying).artist_line
            = (zone.now_playing.getD NowPlaying.empty).artist_line
        ∧ ({ zone.now_playing.getD NowPlaying.empty with
              seek_position := seekFixtureUpdate.seek_position } : NowPlaying).album
            = (zone.now_playing.getD NowPlaying.empty).album
        ∧ ({ zone.now_playing.getD NowPlaying.empty with
              seek_position := seekFixtureUpdate.seek_position } : NowPlaying).one_line
            = (zone.now_playing.getD NowPlaying.empty).one_line
        ∧ ({ zone.now_playing.getD NowPlaying.empty with
              seek_position := seekFixtureUpdate.seek_position } : NowPlaying).two_line
            = (zone.now_playing.getD NowPlaying.empty).two_line
        ∧ ({ zone.now_playing.getD NowPlaying.empty with
              seek_position := seekFixtureUpdate.seek_position } : NowPlaying).three_line
            = (zone.now_playing.getD NowPlaying.empty).three_line
        ∧ ({ zone.now_playing.getD NowPlaying.empty with
              seek_position := seekFixtureUpdate.seek_position } : NowPlaying).length
            = (zone.now_playing.getD NowPlaying.empty).length
        ∧ ({ zone.now_playing.getD NowPlaying.empty with
              seek_position := seekFixtureUpdate.seek_position } : NowPlaying).image_key
            = (zone.now_playing.getD NowPlaying.empty).image_key
        ∧ (applySeekUpdateStep 5 (seekFixtureState, []) seekFixtureUpdate).1.activeZoneId
            = seekFixtureState.activeZoneId
        ∧ (if seekFixtureState.activeZoneId = some seekFixtureUpdate.zone_id
            then (applySeekUpdateStep 5 (seekFixtureState, []) seekFixtureUpdate).1.lastSeekSeconds
                  = (normaliseNumber seekFixtureUpdate.seek_position).getD 0
              ∧ (applySeekUpdateStep 5 (seekFixtureState, []) seekFixtureUpdate).1.lastSeekUpdate
                  = 5
              ∧ (applySeekUpdateStep 5 (seekFixtureState, []) seekFixtureUpdate).1.activeLengthSeconds
                  = normaliseNumber (zone.now_playing.getD NowPlaying.empty).length
              ∧ (applySeekUpdateStep 5 (seekFixtureState, []) seekFixtureUpdate).2
                  = [] ++ [.seeked (Int.floor (jsNumOrZero seekFixtureUpdate.seek_position * 1000000))]
            else (applySeekUpdateStep 5 (seekFixtureState, []) seekFixtureUpdate).1
                  = { seekFixtureState with
                      zones := (applySeekUpdateStep 5 (seekFixtureState, []) seekFixtureUpdate).1.zones }
              ∧ (applySeekUpdateStep 5 (seekFixtureState, []) seekFixtureUpdate).2 = []) :=
  c7_seek_delta 5 seekFixtureState [] seekFixtureUpdate "z2" (by decide)

/-! ## C8 and C10: the SetPosition handler -/

/-- Claim C8 (counterexample).  In a reachable paired state with no zone,
a SetPosition event whose track id "x" differs from the projected idle
track id issues no seek but DOES change state: the handler's lazy
`ensureActiveZone()` runs first and re-applies the idle projection, turning
`canControl` on (the transport now exists), before the stale check is even
reached.  So "no state changes" does not hold as stated. -/
theorem c8_stale_position_cex :
    pairedInitialState.player.metadata.trackid ≠ "x"
    ∧ (handlePosition "" 0 pairedInitialState { trackId := some "x" }).2 = []
    ∧ (handlePosition "" 0 pairedInitialState { trackId := some "x" }).1
        ≠ pairedInitialState := by
  refine ⟨by decide, rfl, by decide⟩

/-- Claim C8 (amended): when a zone is active, a SetPosition event whose
truthy track id differs from the projected track id is dropped: no seek is
issued and the state is unchanged; and an event whose track id equals the
projected track id issues exactly one absolute seek against the active
zone, at the event position converted from microseconds to seconds, again
leaving the state unchanged.  (When no zone is active the handler first
runs lazy selection, which may itself update state — see the
counterexample.) -/
theorem c8_stale_position_amended (pref : String) (now : ℚ) (s : BridgeState)
    (ev : PositionEvent) (z : Zone) (h : s.activeZone = some z) :
    (match ev.trackId with
     | some t => t ≠ "" → t ≠ s.player.metadata.trackid →
         handlePosition pref now s ev = (s, [])
     | none => True)
    ∧ (ev.trackId = some s.player.metadata.trackid →
        handlePosition pref now s ev
          = (s, [.transportSeek z.zone_id "absolute" (ev.position / 1000000)])) := by
  constructor
  · cases ht : ev.trackId with
    | none => trivial
    | some t =>
        intro hne hnemeta
        simp [handlePosition, ensureActiveZone, h, ht, hne, hnemeta]
  · intro ht
    simp [handlePosition, ensureActiveZone, h, ht]

/-- Witness for C8's amended theorem: the two-zone fixture with active zone
"z1", first with a mismatching then with the matching track id. -/
theorem c8_stale_position_witness :
    ((match (({ trackId := some "nope" } : PositionEvent)).trackId with
      | some t => t ≠ "" → t ≠ twoZoneState.player.metadata.trackid →
          handlePosition "" 0 twoZoneState { trackId := some "nope" } = (twoZoneState, [])
      | none => True)
    ∧ ((({ trackId := some "nope" } : PositionEvent)).trackId
          = some twoZoneState.player.metadata.trackid →
        handlePosition "" 0 twoZoneState { trackId := some "nope" }
          = (twoZoneState, [.transportSeek songZone.zone_id "absolute"
              ((({ trackId := some "nope" } : PositionEvent)).position / 1000000)])))
    ∧ twoZoneState.activeZone = some songZone
    ∧ "nope" ≠ twoZoneState.player.metadata.trackid :=
  ⟨c8_stale_position_amended "" 0 twoZoneState { trackId := some "nope" } songZone (by decide),
   by decide, by decide⟩

/-- Claim C10: a SetPosition event whose track id is absent or empty
(falsy) skips the stale-track check entirely: with a zone active, the
absolute seek is issued against that zone at the converted position. -/
theorem c10_falsy_trackid (pref : String) (now : ℚ) (s : BridgeState)
    (ev : PositionEvent) (z : Zone) (h : s.activeZone = some z)
    (hf : ev.trackId = none ∨ ev.trackId = some "") :
    handlePosition pref now s ev
      = (s, [.transportSeek z.zone_id "absolute" (ev.position / 1000000)]) := by
  cases hf with
  | inl hn => simp [handlePosition, ensureActiveZone, h, hn]
  | inr he => simp [handlePosition, ensureActiveZone, h, he]

/-- Witness for C10: an absent track id against the two-zone fixture. -/
theorem c10_falsy_trackid_witness :
    handlePosition "" 0 twoZoneState { trackId := none, position := 0 }
      = (twoZoneState, [.transportSeek songZone.zone_id "absolute"
          ((({ trackId := none, position := 0 } : PositionEvent)).position / 1000000)]) :=
  c10_falsy_trackid "" 0 twoZoneState { trackId := none, position := 0 } songZone
    (by decide) (Or.inl rfl)

/-! ## State-preservation lemmas for the changed-event loops -/

theorem updateFromActiveZone_activeZoneId (now : ℚ) (z : Zone) (s : BridgeState) :
    (updateFromActiveZone now z s).activeZoneId = s.activeZoneId := rfl

theorem activateZone_some_activeZoneId (now : ℚ) (z : Zone) (s : BridgeState) :
    (activateZone now (some z) s).activeZoneId = some z.zone_id := rfl

theorem activateZone_none_fields (now : ℚ) (s : BridgeState) :
    (activateZone now none s).activeZoneId = none
    ∧ (activateZone now none s).activeZone = none
    ∧ (activateZone now none s).player.metadata = idleMetadata
    ∧ (activateZone now none s).player.playbackStatus = "Stopped"
    ∧ (activateZone now none s).zones = s.zones
    ∧ (activateZone now none s).transport = s.transport :=
  ⟨rfl, rfl, rfl, rfl, rfl, rfl⟩

theorem activateZone_zones (now : ℚ) (z : Option Zone) (s : BridgeState) :
    (activateZone now z s).zones = s.zones := by
  cases z <;> rfl

theorem activateZone_transport (now : ℚ) (z : Option Zone) (s : BridgeState) :
    (activateZone now z s).transport = s.transport := by
  cases z <;> rfl

theorem selectAndActivateZone_zones (pref : String) (now : ℚ) (s : BridgeState) :
    (selectAndActivateZone pref now s).zones = s.zones :=
  activateZone_zones now _ s

theorem selectAndActivateZone_transport (pref : String) (now : ℚ) (s : BridgeState) :
    (selectAndActivateZone pref now s).transport = s.transport :=
  activateZone_transport now _ s

theorem removeFold_keep_active (now : ℚ) (l : List String) :
    ∀ (s : BridgeState) (aid : String), s.activeZoneId = some aid → aid ∉ l →
    (l.foldl (removeZoneStep now) s).activeZoneId = some aid := by
  induction l with
  | nil => intro s aid h _; exact h
  | cons a rest ih =>
      intro s aid h hmem
      have hne : aid ≠ a := fun hc => hmem (by simp [hc])
      have hstep : (removeZoneStep now s a).activeZoneId = some aid := by
        unfold removeZoneStep
        rw [if_neg]
        · exact h
        · dsimp only
          rw [h]
          simp [hne]
      exact ih _ _ hstep (fun hm => hmem (List.mem_cons_of_mem _ hm))

theorem removeFold_none (now : ℚ) (l : List String) :
    ∀ (s : BridgeState), s.activeZoneId = none →
    (l.foldl (removeZoneStep now) s).activeZoneId = none := by
  induction l with
  | nil => intro s h; exact h
  | cons a rest ih =>
      intro s h
      have hstep : (removeZoneStep now s a).activeZoneId = none := by
        unfold removeZoneStep
        rw [if_neg]
        · exact h
        · dsimp only
          rw [h]
          simp
      exact ih _ hstep

theorem removeFold_removes_active (now : ℚ) (l : List String) :
    ∀ (s : BridgeState) (aid : String), s.activeZoneId = some aid → aid ∈ l →
    (l.foldl (removeZoneStep now) s).activeZoneId = none := by
  induction l with
  | nil => intro s aid _ hm; cases hm
  | cons a rest ih =>
      intro s aid h hmem
      by_cases hcase : aid = a
      · subst hcase
        have hstep : (removeZoneStep now s aid).activeZoneId = none := by
          unfold removeZoneStep
          rw [if_pos]
          · exact (activateZone_none_fields now _).1
          · dsimp only
            rw [h]
        exact removeFold_none now rest _ hstep
      · have hmem' : aid ∈ rest := by
          cases hmem with
          | head => exact absurd rfl hcase
          | tail _ hm => exact hm
        have hstep : (removeZoneStep now s a).activeZoneId = some aid := by
          unfold removeZoneStep
          rw [if_neg]
          · exact h
          · dsimp only
            rw [h]
            simp [hcase]
        exact ih _ _ hstep hmem'

theorem addFold_activeZoneId (l : List Zone) :
    ∀ (s : BridgeState), (l.foldl addZoneStep s).activeZoneId = s.activeZoneId := by
  induction l with
  | nil => intro s; rfl
  | cons z rest ih => intro s; exact ih _

theorem changeFold_keep_active (now : ℚ) (l : List Zone) :
    ∀ (s : BridgeState) (aid : String), s.activeZoneId = some aid →
    (l.foldl (changeZoneStep now) s).activeZoneId = some aid := by
  induction l with
  | nil => intro s aid h; exact h
  | cons z rest ih =>
      intro s aid h
      have hstep : (changeZoneStep now s z).activeZoneId = some aid := by
        unfold changeZoneStep
        by_cases hc : s.activeZoneId = some z.zone_id
        · rw [if_pos]
          · rw [activateZone_some_activeZoneId]
            rw [h] at hc
            exact hc.symm
          · dsimp only
            exact hc
        · rw [if_neg]
          · exact h
          · dsimp only
            exact hc
      exact ih _ _ hstep

theorem changeFold_none (now : ℚ) (l : List Zone) :
    ∀ (s : BridgeState), s.activeZoneId = none →
    (l.foldl (changeZoneStep now) s).activeZoneId = none := by
  induction l with
  | nil => intro s h; exact h
  | cons z rest ih =>
      intro s h
      have hstep : (changeZoneStep now s z).activeZoneId = none := by
        unfold changeZoneStep
        rw [if_neg]
        · exact h
        · dsimp only
          rw [h]
          simp
      exact ih _ hstep

theorem seekFold_activeZoneId (now : ℚ) (l : List SeekUpdate) :
    ∀ (acc : BridgeState × List Emit),
    (l.foldl (applySeekUpdateStep now) acc).1.activeZoneId = acc.1.activeZoneId := by
  induction l with
  | nil => intro acc; rfl
  | cons u rest ih =>
      intro acc
      rw [List.foldl_cons, ih]
      unfold applySeekUpdateStep
      cases hget : assocGet acc.1.zones u.zone_id with
      | none => simp [hget]
      | some zone =>
          by_cases hact : acc.1.activeZoneId = some u.zone_id <;>
            simp [hget, hact, updateSeekState]

/-! ## C4: stickiness of the active zone -/

/-- Claim C4 (counterexample).  A reachable state in which the active
zone's id is the empty string: a Changed event that removes nothing (it
only adds a playing zone "b") still switches the selection away, because
`if (!activeZoneId)` treats the empty-string id as "no active zone" and
re-runs selection, which then prefers the playing zone. -/
theorem c4_stickiness_cex :
    emptyIdState.activeZoneId = some ""
    ∧ addPlayingBCs.zones_removed.getD [] = []
    ∧ (processChanged "" 0 emptyIdState addPlayingBCs).1.activeZoneId ≠ some "" := by
  refine ⟨by decide, rfl, by decide⟩

/-- Claim C4 (amended): once zone A is active and A's id is a NON-EMPTY
string, processing any Changed event whose removal list does not contain
A's id leaves A the active zone — additions, changes (including changes to
A itself) and seek deltas never move the selection, and the end-of-event
re-selection is skipped because an active zone is present.  (A JS-falsy
empty-string id re-triggers selection; see the counterexample.) -/
theorem c4_stickiness_amended (pref : String) (now : ℚ) (s : BridgeState)
    (cs : ChangeSet) (aid : String) (h1 : s.activeZoneId = some aid)
    (h2 : aid ≠ "") (h3 : aid ∉ cs.zones_removed.getD []) :
    (processChanged pref now s cs).1.activeZoneId = some aid := by
  unfold processChanged
  have hr := removeFold_keep_active now (cs.zones_removed.getD []) s aid h1 h3
  have ha : ((cs.zones_added.getD []).foldl addZoneStep
      ((cs.zones_removed.getD []).foldl (removeZoneStep now) s)).activeZoneId = some aid := by
    rw [addFold_activeZoneId]; exact hr
  have hc := changeFold_keep_active now (cs.zones_changed.getD []) _ aid ha
  have hs : ((cs.zones_seek_changed.getD []).foldl (applySeekUpdateStep now)
      (((cs.zones_changed.getD []).foldl (changeZoneStep now)
        ((cs.zones_added.getD []).foldl addZoneStep
          ((cs.zones_removed.getD []).foldl (removeZoneStep now) s))), [])).1.activeZoneId
      = some aid := by
    rw [seekFold_activeZoneId]; exact hc
  have hcond : jsFalsyId (((cs.zones_seek_changed.getD []).foldl (applySeekUpdateStep now)
      (((cs.zones_changed.getD []).foldl (changeZoneStep now)
        ((cs.zones_added.getD []).foldl addZoneStep
          ((cs.zones_removed.getD []).foldl (removeZoneStep now) s))), [])).1.activeZoneId)
      = false := by
    rw [hs]
    simp [jsFalsyId, h2]
  dsimp only
  rw [hcond]
  simp only [Bool.false_eq_true, if_false]
  exact hs

/-- Witness for C4's amended theorem: the two-zone fixture with active
zone "z1" and an empty change-set. -/
theorem c4_stickiness_witness :
    (processChanged "" 0 twoZoneState ({} : ChangeSet)).1.activeZoneId = some "z1" :=
  c4_stickiness_amended "" 0 twoZoneState {} "z1" (by decide) (by decide) (by decide)

/-! ## C2: idle reset on removal of the active zone -/

/-- A zone-derived track id (`objectPath('zone/' + id)`) never collides
with the idle default track id (`objectPath('track/0')`): the object path
join is a plain concatenation and the suffixes differ at their first
character. -/
theorem objectPath_zone_ne_default (zid : String) :
    objectPath ("zone/" ++ zid) ≠ objectPath DEFAULT_TRACK_ID_SUFFIX := by
  intro h
  have hd := congrArg String.data h
  simp only [objectPath, DEFAULT_TRACK_ID_SUFFIX, String.data_append] at hd
  have h2 := List.append_cancel_left hd
  have h3 : (("zone/").data ++ zid.data).head? = (("track/0").data).head? :=
    congrArg List.head? h2
  rw [show ("zone/").data = 'z' :: 'o' :: 'n' :: 'e' :: '/' :: [] from rfl,
    show ("track/0").data = 't' :: 'r' :: 'a' :: 'c' :: 'k' :: '/' :: '0' :: [] from rfl] at h3
  simp at h3

/-- Claim C2 (counterexample).  Removing the active zone "z1" while the
stopped zone "z2" remains in the registry does NOT leave the idle
projection at the end of the event: the end-of-event re-selection
immediately activates "z2", so the title is "Other", not "Roon", and the
selection is not null. -/
theorem c2_idle_reset_cex :
    twoZoneState.activeZoneId = some "z1"
    ∧ removeZ1Cs.zones_removed.getD [] = ["z1"]
    ∧ (processChanged "" 0 twoZoneState removeZ1Cs).1.player.metadata.title ≠ "Roon"
    ∧ (processChanged "" 0 twoZoneState removeZ1Cs).1.activeZoneId ≠ none := by
  refine ⟨by decide, rfl, by decide, by decide⟩

/-- Claim C2 (amended): if a Changed event removes the active zone AND the
registry is empty at the end of the event (no surviving zone for the
end-of-event re-selection to activate), the state ends in the idle
projection — no selection, idle metadata (title "Roon", placeholder artist
and album, the idle default track id) and playback status Stopped — and
the idle default track id collides with no zone-derived track id.  (When
other zones survive, the re-selection immediately activates one of them;
see the counterexample.) -/
theorem c2_idle_reset_amended (pref : String) (now : ℚ) (s : BridgeState)
    (cs : ChangeSet) (aid zid : String) (h1 : s.activeZoneId = some aid)
    (h2 : aid ∈ cs.zones_removed.getD [])
    (h3 : (processChanged pref now s cs).1.zones = []) :
    (processChanged pref now s cs).1.activeZoneId = none
    ∧ (processChanged pref now s cs).1.activeZone = none
    ∧ (processChanged pref now s cs).1.player.metadata = idleMetadata
    ∧ (processChanged pref now s cs).1.player.playbackStatus = "Stopped"
    ∧ idleMetadata.trackid = objectPath DEFAULT_TRACK_ID_SUFFIX
    ∧ objectPath ("zone/" ++ zid) ≠ objectPath DEFAULT_TRACK_ID_SUFFIX := by
  have hr := removeFold_removes_active now (cs.zones_removed.getD []) s aid h1 h2
  have ha : ((cs.zones_added.getD []).foldl addZoneStep
      ((cs.zones_removed.getD []).foldl (removeZoneStep now) s)).activeZoneId = none := by
    rw [addFold_activeZoneId]; exact hr
  have hc := changeFold_none now (cs.zones_changed.getD []) _ ha
  have hs : (((cs.zones_seek_changed.getD []).foldl (applySeekUpdateStep now)
      (((cs.zones_changed.getD []).foldl (changeZoneStep now)
        ((cs.zones_added.getD []).foldl addZoneStep
          ((cs.zones_removed.getD []).foldl (removeZoneStep now) s))), [])).1).activeZoneId
      = none := by
    rw [seekFold_activeZoneId]; exact hc
  have hcond : jsFalsyId (((cs.zones_seek_changed.getD []).foldl (applySeekUpdateStep now)
      (((cs.zones_changed.getD []).foldl (changeZoneStep now)
        ((cs.zones_added.getD []).foldl addZoneStep
          ((cs.zones_removed.getD []).foldl (removeZoneStep now) s))), [])).1).activeZoneId
      = true := by
    rw [hs]
    rfl
  have hsel : (processChanged pref now s cs).1
      = selectAndActivateZone pref now
        (((cs.zones_seek_changed.getD []).foldl (applySeekUpdateStep now)
          (((cs.zones_changed.getD []).foldl (changeZoneStep now)
            ((cs.zones_added.getD []).foldl addZoneStep
              ((cs.zones_removed.getD []).foldl (removeZoneStep now) s))), [])).1) := by
    unfold processChanged
    dsimp only
    rw [hcond]
    simp
  have hzempty : (((cs.zones_seek_changed.getD []).foldl (applySeekUpdateStep now)
      (((cs.zones_changed.getD []).foldl (changeZoneStep now)
        ((cs.zones_added.getD []).foldl addZoneStep
          ((cs.zones_removed.getD []).foldl (removeZoneStep now) s))), [])).1).zones = [] := by
    have := h3
    rw [hsel, selectAndActivateZone_zones] at this
    exact this
  have hnone : (processChanged pref now s cs).1
      = activateZone now none
        (((cs.zones_seek_changed.getD []).foldl (applySeekUpdateStep now)
          (((cs.zones_changed.getD []).foldl (changeZoneStep now)
            ((cs.zones_added.getD []).foldl addZoneStep
              ((cs.zones_removed.getD []).foldl (removeZoneStep now) s))), [])).1) := by
    rw [hsel]
    unfold selectAndActivateZone
    rw [show (selectZone pref (((cs.zones_seek_changed.getD []).foldl (applySeekUpdateStep now)
      (((cs.zones_changed.getD []).foldl (changeZoneStep now)
        ((cs.zones_added.getD []).foldl addZoneStep
          ((cs.zones_removed.getD []).foldl (removeZoneStep now) s))), [])).1).zones
      (((cs.zones_seek_changed.getD []).foldl (applySeekUpdateStep now)
      (((cs.zones_changed.getD []).foldl (changeZoneStep now)
        ((cs.zones_added.getD []).foldl addZoneStep
          ((cs.zones_removed.getD []).foldl (removeZoneStep now) s))), [])).1).activeZoneId)
      = none by rw [hzempty]; rfl]
  rw [hnone]
  exact ⟨(activateZone_none_fields now _).1, (activateZone_none_fields now _).2.1,
    (activateZone_none_fields now _).2.2.1, (activateZone_none_fields now _).2.2.2.1,
    rfl, objectPath_zone_ne_default zid⟩

/-- Witness for C2's amended theorem: a single zone "x" active, removed by
the event, leaving the registry empty. -/
theorem c2_idle_reset_witness :
    (processChanged "" 0 oneZoneState removeXCs).1.activeZoneId = none
    ∧ (processChanged "" 0 oneZoneState removeXCs).1.activeZone = none
    ∧ (processChanged "" 0 oneZoneState removeXCs).1.player.metadata = idleMetadata
    ∧ (processChanged "" 0 oneZoneState removeXCs).1.player.playbackStatus = "Stopped"
    ∧ idleMetadata.trackid = objectPath DEFAULT_TRACK_ID_SUFFIX
    ∧ objectPath ("zone/" ++ "q") ≠ objectPath DEFAULT_TRACK_ID_SUFFIX :=
  c2_idle_reset_amended "" 0 oneZoneState removeXCs "x" "q" (by decide) (by decide) (by decide)

/-! ## C9: null-transport safety invariant -/

theorem ensureActiveZone_of_idle (pref : String) (now : ℚ) (s : BridgeState)
    (hz : s.zones = []) (hzn : s.activeZone = none) :
    ensureActiveZone pref now s = (activateZone now none s, none) := by
  unfold ensureActiveZone
  rw [hzn]
  dsimp only
  unfold selectAndActivateZone
  rw [show selectZone pref s.zones s.activeZoneId = none from by rw [hz]; rfl]
  rw [(activateZone_none_fields now s).2.1]

theorem ensureActiveZone_transport (pref : String) (now : ℚ) (s : BridgeState) :
    (ensureActiveZone pref now s).1.transport = s.transport := by
  unfold ensureActiveZone
  cases hz : s.activeZone with
  | some z => rfl
  | none => exact selectAndActivateZone_transport pref now s

theorem sendTransportCommand_transport (pref : String) (now : ℚ) (s : BridgeState)
    (verb : String) : (sendTransportCommand pref now s verb).1.transport = s.transport := by
  have h := ensureActiveZone_transport pref now s
  unfold sendTransportCommand
  cases hens : ensureActiveZone pref now s with
  | mk s1 zo =>
      rw [hens] at h
      cases zo with
      | none => exact h
      | some z =>
          dsimp only
          split
          · exact h
          · exact h

theorem handleSeek_transport (pref : String) (now : ℚ) (s : BridgeState) (offset : ℚ) :
    (handleSeek pref now s offset).1.transport = s.transport := by
  have h := ensureActiveZone_transport pref now s
  unfold handleSeek
  cases hens : ensureActiveZone pref now s with
  | mk s1 zo =>
      rw [hens] at h
      cases zo with
      | none => exact h
      | some z => exact h

theorem handlePosition_transport (pref : String) (now : ℚ) (s : BridgeState)
    (ev : PositionEvent) : (handlePosition pref now s ev).1.transport = s.transport := by
  have h := ensureActiveZone_transport pref now s
  unfold handlePosition
  cases hens : ensureActiveZone pref now s with
  | mk s1 zo =>
      rw [hens] at h
      cases zo with
      | none => exact h
      | some z =>
          dsimp only
          cases ev.trackId with
          | none => exact h
          | some t =>
              dsimp only
              split <;> exact h

theorem removeFold_transport (now : ℚ) (l : List String) :
    ∀ (s : BridgeState), (l.foldl (removeZoneStep now) s).transport = s.transport := by
  induction l with
  | nil => intro s; rfl
  | cons a rest ih =>
      intro s
      rw [List.foldl_cons, ih]
      unfold removeZoneStep
      dsimp only
      split
      · exact activateZone_transport now none _
      · rfl

theorem addFold_transport (l : List Zone) :
    ∀ (s : BridgeState), (l.foldl addZoneStep s).transport = s.transport := by
  induction l with
  | nil => intro s; rfl
  | cons z rest ih => intro s; rw [List.foldl_cons, ih]; rfl

theorem changeFold_transport (now : ℚ) (l : List Zone) :
    ∀ (s : BridgeState), (l.foldl (changeZoneStep now) s).transport = s.transport := by
  induction l with
  | nil => intro s; rfl
  | cons z rest ih =>
      intro s
      rw [List.foldl_cons, ih]
      unfold changeZoneStep
      dsimp only
      split
      · exact activateZone_transport now _ _
      · rfl

theorem seekFold_transport (now : ℚ) (l : List SeekUpdate) :
    ∀ (acc : BridgeState × List Emit),
    (l.foldl (applySeekUpdateStep now) acc).1.transport = acc.1.transport := by
  induction l with
  | nil => intro acc; rfl
  | cons u rest ih =>
      intro acc
      rw [List.foldl_cons, ih]
      unfold applySeekUpdateStep
      cases hget : assocGet acc.1.zones u.zone_id with
      | none => simp [hget]
      | some zone =>
          by_cases hact : acc.1.activeZoneId = some u.zone_id <;>
            simp [hget, hact, updateSeekState]

theorem processChanged_transport (pref : String) (now : ℚ) (s : BridgeState)
    (cs : ChangeSet) : (processChanged pref now s cs).1.transport = s.transport := by
  unfold processChanged
  dsimp only
  split
  · rw [selectAndActivateZone_transport, seekFold_transport, changeFold_transport,
      addFold_transport, removeFold_transport]
  · rw [seekFold_transport, changeFold_transport, addFold_transport, removeFold_transport]

theorem processSubscribed_transport (pref : String) (now : ℚ) (s : BridgeState)
    (zs : List Zone) : (processSubscribed pref now s zs).transport = s.transport := by
  unfold processSubscribed
  rw [selectAndActivateZone_transport]

/-- The null-transport invariant: in every reachable state, a null transport
handle implies an empty zone registry and no active zone. -/
theorem reachable_null_transport_inv (pref : String) (s : BridgeState)
    (h : Reachable pref s) :
    s.transport = false → s.zones = [] ∧ s.activeZoneId = none ∧ s.activeZone = none := by
  induction h with
  | init => intro _; exact ⟨rfl, rfl, rfl⟩
  | paired _ _ =>
      intro ht
      simp [processPaired] at ht
  | unpaired now _ _ =>
      intro _
      unfold processUnpaired
      exact ⟨by rw [activateZone_zones], (activateZone_none_fields now _).1,
        (activateZone_none_fields now _).2.1⟩
  | subscribed now zs _ htr _ =>
      intro ht
      rw [processSubscribed_transport, htr] at ht
      cases ht
  | changed now cs _ htr _ =>
      intro ht
      rw [processChanged_transport, htr] at ht
      cases ht
  | @unsubscribed s' now hr htr ih =>
      intro ht
      unfold processUnsubscribed at ht
      rw [activateZone_transport] at ht
      rw [show ({ s' with zones := [] } : BridgeState).transport = s'.transport from rfl,
        htr] at ht
      cases ht
  | control now verb _ ih =>
      intro ht
      rw [sendTransportCommand_transport] at ht
      obtain ⟨hz, _, hzn⟩ := ih ht
      have hens := ensureActiveZone_of_idle pref now _ hz hzn
      unfold sendTransportCommand
      rw [hens]
      dsimp only
      exact ⟨by rw [activateZone_zones]; exact hz, (activateZone_none_fields now _).1,
        (activateZone_none_fields now _).2.1⟩
  | seek now offset _ ih =>
      intro ht
      rw [handleSeek_transport] at ht
      obtain ⟨hz, _, hzn⟩ := ih ht
      have hens := ensureActiveZone_of_idle pref now _ hz hzn
      unfold handleSeek
      rw [hens]
      exact ⟨by rw [activateZone_zones]; exact hz, (activateZone_none_fields now _).1,
        (activateZone_none_fields now _).2.1⟩
  | position now ev _ ih =>
      intro ht
      rw [handlePosition_transport] at ht
      obtain ⟨hz, _, hzn⟩ := ih ht
      have hens := ensureActiveZone_of_idle pref now _ hz hzn
      unfold handlePosition
      rw [hens]
      exact ⟨by rw [activateZone_zones]; exact hz, (activateZone_none_fields now _).1,
        (activateZone_none_fields now _).2.1⟩

/-- Claim C9: in every reachable state with a null transport handle, the
zone registry is empty and no zone is active; consequently the relative
seek and SetPosition handlers — which call `transport.seek` with no null
check once a zone is resolved — resolve no zone (the lazy selection on an
empty registry yields null and the handler returns first) and so never
reach the transport dereference: they emit no transport call at all. -/
theorem c9_null_transport_safety (pref : String) (s : BridgeState) (now offset : ℚ)
    (ev : PositionEvent) (h : Reachable pref s) (ht : s.transport = false) :
    s.zones = [] ∧ s.activeZoneId = none ∧ s.activeZone = none
    ∧ (handleSeek pref now s offset).2 = []
    ∧ (handlePosition pref now s ev).2 = [] := by
  obtain ⟨hz, hid, hzn⟩ := reachable_null_transport_inv pref s h ht
  have hens := ensureActiveZone_of_idle pref now s hz hzn
  refine ⟨hz, hid, hzn, ?_, ?_⟩
  · unfold handleSeek
    rw [hens]
  · unfold handlePosition
    rw [hens]

/-- Witness for C9 at the initial (unpaired) state. -/
theorem c9_null_transport_witness :
    initialBridgeState.zones = [] ∧ initialBridgeState.activeZoneId = none
    ∧ initialBridgeState.activeZone = none
    ∧ (handleSeek "" 0 initialBridgeState 0).2 = []
    ∧ (handlePosition "" 0 initialBridgeState {}).2 = [] :=
  c9_null_transport_safety "" initialBridgeState 0 0 {} Reachable.init rfl

end RoonMpris
